import Mathlib

/-!
Shallow embedding of the order/payment subsystem of the helmet storefront
backend (order controller, payment service, coupon evaluation), together with
theorems checking the specification claims about that subsystem.

Conventions of the embedding:
* Money amounts (JS numbers holding currency values) are rationals.
* Timestamps (JS Date values) are integers (milliseconds since the epoch).
* The database is an explicit state record of lists; each Prisma query or
  update is translated to the corresponding pure list operation.
* A Prisma transaction is modelled with an explicit `txOk` environment flag:
  when the flag is false the transaction aborts, none of its writes are
  applied, and the surrounding handler rethrows; writes issued outside the
  transaction persist either way.
* `throw new AppError(msg, code)` becomes `Except.error ⟨msg, code⟩`.
-/

namespace Helmet

/-- JS Math.round: round half toward positive infinity. -/
def jround (x : ℚ) : ℤ := ⌊x + 1/2⌋

/-- JS String.prototype.toUpperCase restricted to the per-character map
(the only use sites are ASCII coupon codes). -/
def jsToUpper (s : String) : String := ⟨s.data.map Char.toUpper⟩

/-- The AppError class of the error-handler middleware: a message plus an
HTTP status code. -/
structure AppError where
  message : String
  statusCode : ℕ
deriving DecidableEq

inductive DiscountType
  | PERCENTAGE
  | FIXED
deriving DecidableEq

inductive PayMethod
  | COD
  | RAZORPAY
deriving DecidableEq

inductive PayStatus
  | PENDING
  | PAID
  | FAILED
  | REFUNDED
deriving DecidableEq

inductive OrdStatus
  | PENDING
  | CONFIRMED
  | PROCESSING
  | SHIPPED
  | DELIVERED
  | CANCELLED
  | RETURNED
deriving DecidableEq

/-- A row of the Coupon table. `maxDiscount` is nullable; a present Decimal
is truthy in JS even when it is zero, so the model keeps it as an Option. -/
structure Coupon where
  id : ℕ
  code : String
  discountType : DiscountType
  discountValue : ℚ
  minPurchase : ℚ
  maxDiscount : Option ℚ
  usageLimit : ℤ
  usedCount : ℤ
  validFrom : ℤ
  validUntil : ℤ
  isActive : Bool
deriving DecidableEq

/-- A cart item as returned by the cart query in createOrder, which joins the
product (its price and discountPrice) and the variant (its additionalPrice).
`productDiscountPrice` is none exactly when the column is null, which is the
only falsy case of the joined Decimal object. -/
structure CartItem where
  productId : ℕ
  variantId : Option ℕ
  quantity : ℤ
  productPrice : ℚ
  productDiscountPrice : Option ℚ
  variantAdditionalPrice : ℚ
deriving DecidableEq

structure Cart where
  id : ℕ
  userId : ℕ
  items : List CartItem
deriving DecidableEq

/-- An OrderItem row: snapshot of price and quantity at order time. -/
structure OrderItem where
  productId : ℕ
  variantId : Option ℕ
  price : ℚ
  quantity : ℤ
  subtotal : ℚ
deriving DecidableEq

/-- An Order row, with the fields the order controller reads or writes. -/
structure Order where
  id : ℕ
  orderNumber : String
  userId : ℕ
  addressId : ℕ
  subtotal : ℚ
  discount : ℚ
  shippingCharge : ℚ
  tax : ℚ
  total : ℚ
  paymentMethod : PayMethod
  paymentStatus : PayStatus
  orderStatus : OrdStatus
  razorpayOrderId : Option String
  razorpayPaymentId : Option String
  items : List OrderItem
  createdAt : ℤ
deriving DecidableEq

/-- The database state touched by the order/payment subsystem.  Product and
variant stock counters are (id, stock) pairs; addresses are (id, userId)
pairs, which is all the address check reads. -/
structure St where
  products : List (ℕ × ℤ)
  variants : List (ℕ × ℤ)
  coupons : List Coupon
  carts : List Cart
  addresses : List (ℕ × ℕ)
  orders : List Order
deriving DecidableEq

/-- Prisma `update ... data: (stock: (increment d))` on the row with the given
id (decrement is `d < 0`). -/
def adjStock (l : List (ℕ × ℤ)) (id : ℕ) (d : ℤ) : List (ℕ × ℤ) :=
  l.map (fun p => if p.1 = id then (p.1, p.2 + d) else p)

/-- The (productId, variantId, quantity) rows of a list of cart items. -/
def cartRows (items : List CartItem) : List (ℕ × Option ℕ × ℤ) :=
  items.map (fun it => (it.productId, it.variantId, it.quantity))

/-- The (productId, variantId, quantity) rows of a list of order items. -/
def orderRows (items : List OrderItem) : List (ℕ × Option ℕ × ℤ) :=
  items.map (fun it => (it.productId, it.variantId, it.quantity))

/-- Product-level effect of the per-item stock loops: each loop iteration
issues one product update, and the product and variant tables are disjoint,
so the loop splits into one fold per table. -/
def bumpProducts (ps : List (ℕ × ℤ)) (rows : List (ℕ × Option ℕ × ℤ)) (sign : ℤ) :
    List (ℕ × ℤ) :=
  rows.foldl (fun acc r => adjStock acc r.1 (sign * r.2.2)) ps

/-- Variant-level effect of the per-item stock loops; items without a variant
issue no variant update. -/
def bumpVariants (vs : List (ℕ × ℤ)) (rows : List (ℕ × Option ℕ × ℤ)) (sign : ℤ) :
    List (ℕ × ℤ) :=
  rows.foldl
    (fun acc r =>
      match r.2.1 with
      | some vid => adjStock acc vid (sign * r.2.2)
      | none => acc)
    vs

/-- Prisma `cartItem.deleteMany (where cartId)`: empty the items of that cart. -/
def clearCart (carts : List Cart) (cartId : ℕ) : List Cart :=
  carts.map (fun c => if c.id = cartId then { c with items := [] } else c)

/-- Prisma `coupon.findUnique (where code)`. -/
def findCoupon (cs : List Coupon) (code : String) : Option Coupon :=
  cs.find? (fun c => decide (c.code = code))

/-- Prisma `coupon.update (data: usedCount increment 1)` on the row with that id. -/
def incCouponUsed (cs : List Coupon) (id : ℕ) : List Coupon :=
  cs.map (fun c => if c.id = id then { c with usedCount := c.usedCount + 1 } else c)

/-- The discount formula shared by createOrder and validateCoupon:
PERCENTAGE is subtotal * value / 100 capped at maxDiscount when that column
is non-null; FIXED is the flat value. -/
def couponDiscount (c : Coupon) (subtotal : ℚ) : ℚ :=
  match c.discountType with
  | DiscountType.PERCENTAGE =>
    let d := subtotal * (c.discountValue / 100)
    match c.maxDiscount with
    | some m => min d m
    | none => d
  | DiscountType.FIXED => c.discountValue

/-- The single boolean gate createOrder applies to a found coupon:
active, below its usage limit, inside its validity window, and subtotal at
least minPurchase. -/
def couponOkAtCheckout (c : Coupon) (now : ℤ) (subtotal : ℚ) : Bool :=
  c.isActive && decide (c.usedCount < c.usageLimit) &&
    decide (c.validFrom ≤ now) && decide (now ≤ c.validUntil) &&
    decide (c.minPurchase ≤ subtotal)

/-- The coupon step of createOrder: if a (truthy) code was supplied, look the
coupon up by the code exactly as supplied; if found and the checkout gate
passes, return its discount and increment its usedCount, otherwise discount 0
with coupons untouched.  No error is ever raised here. -/
def checkoutCouponStep (cs : List Coupon) (couponCode : Option String)
    (subtotal : ℚ) (now : ℤ) : ℚ × List Coupon :=
  match couponCode with
  | none => (0, cs)
  | some code =>
    if code = "" then (0, cs)
    else
      match findCoupon cs code with
      | none => (0, cs)
      | some c =>
        if couponOkAtCheckout c now subtotal then
          (couponDiscount c subtotal, incCouponUsed cs c.id)
        else (0, cs)

/-- Unit price of a cart line in createOrder: discountPrice when non-null else
price, plus the variant additionalPrice when the line has a variant. -/
def unitPrice (it : CartItem) : ℚ :=
  (match it.productDiscountPrice with
   | some dp => dp
   | none => it.productPrice) +
  (match it.variantId with
   | some _ => it.variantAdditionalPrice
   | none => 0)

/-- The OrderItem snapshot createOrder builds from one cart line. -/
def mkOrderItem (it : CartItem) : OrderItem :=
  { productId := it.productId
    variantId := it.variantId
    price := unitPrice it
    quantity := it.quantity
    subtotal := unitPrice it * it.quantity }

/-- The subtotal accumulated over the cart lines. -/
def cartSubtotal (items : List CartItem) : ℚ :=
  (items.map (fun it => unitPrice it * it.quantity)).sum

/-- The data of the successful validate-coupon response. -/
structure CouponPreview where
  code : String
  discountType : DiscountType
  discountValue : ℚ
  discount : ℤ
  minPurchase : ℚ
  maxDiscount : Option ℚ
deriving DecidableEq

/-- POST /api/orders/validate-coupon.  Looks the coupon up by the uppercased
code, walks the validity gates each with its own error, and returns the
rounded discount.  Reads only; never writes. -/
def validateCoupon (s : St) (couponCode : String) (subtotal : ℚ) (now : ℤ) :
    Except AppError CouponPreview :=
  if couponCode = "" then Except.error ⟨"Coupon code is required", 400⟩
  else
    match findCoupon s.coupons (jsToUpper couponCode) with
    | none => Except.error ⟨"Invalid coupon code", 404⟩
    | some c =>
      if !c.isActive then Except.error ⟨"This coupon is no longer active", 400⟩
      else if c.usageLimit ≤ c.usedCount then
        Except.error ⟨"This coupon has reached its usage limit", 400⟩
      else if now < c.validFrom then
        Except.error ⟨"This coupon is not yet valid", 400⟩
      else if c.validUntil < now then
        Except.error ⟨"This coupon has expired", 400⟩
      else if 0 < subtotal ∧ subtotal < c.minPurchase then
        Except.error ⟨"Minimum purchase required for this coupon", 400⟩
      else
        Except.ok
          { code := c.code
            discountType := c.discountType
            discountValue := c.discountValue
            discount := jround (if 0 < subtotal then couponDiscount c subtotal else 0)
            minPurchase := c.minPurchase
            maxDiscount := c.maxDiscount }

/-- Environment of one createOrder call: the wall clock, whether the
order-creation transaction commits, the id the gateway assigns to the remote
order (none = the gateway call throws), and the fresh identifiers the
database and the order-number generator produce. -/
structure CreateEnv where
  now : ℤ
  txOk : Bool
  gatewayOrderId : Option String
  newOrderId : ℕ
  orderNumber : String

/-- Request body of POST /api/orders plus the authenticated user. -/
structure CreateInput where
  userId : ℕ
  addressId : ℕ
  paymentMethod : PayMethod
  couponCode : Option String
deriving DecidableEq

/-- Successful createOrder outcome: either the existing pending gateway order
returned by the deduplication check, or the freshly created order. -/
inductive CreateOutcome
  | existing (o : Order)
  | created (o : Order)
deriving DecidableEq

/-- The order row of whichever outcome. -/
def CreateOutcome.order : CreateOutcome → Order
  | CreateOutcome.existing o => o
  | CreateOutcome.created o => o

/-- The 10-minute reuse window of the gateway deduplication, in ms. -/
def tenMinutesMs : ℤ := 600000

/-- The where-clause of the pending gateway order lookup in createOrder. -/
def pendingGatewayMatch (uid : ℕ) (cutoff : ℤ) (o : Order) : Bool :=
  decide (o.userId = uid) && decide (o.paymentMethod = PayMethod.RAZORPAY) &&
    decide (o.paymentStatus = PayStatus.PENDING) &&
    decide (o.orderStatus = OrdStatus.PENDING) &&
    o.razorpayOrderId.isSome && decide (cutoff ≤ o.createdAt)

/-- Prisma `findFirst ... orderBy createdAt desc` over an already filtered list:
the first row with maximal createdAt. -/
def latestBy (l : List Order) : Option Order :=
  l.foldl
    (fun acc o =>
      match acc with
      | none => some o
      | some b => if b.createdAt < o.createdAt then some o else some b)
    none

/-- Prisma `order.updateMany`: cancel the stale (> 10 min old) pending gateway
orders of this user. -/
def cancelStale (orders : List Order) (uid : ℕ) (cutoff : ℤ) : List Order :=
  orders.map
    (fun o =>
      if decide (o.userId = uid) && decide (o.paymentMethod = PayMethod.RAZORPAY) &&
          decide (o.paymentStatus = PayStatus.PENDING) &&
          decide (o.orderStatus = OrdStatus.PENDING) &&
          decide (o.createdAt < cutoff) then
        { o with orderStatus := OrdStatus.CANCELLED, paymentStatus := PayStatus.FAILED }
      else o)

/-- The order row `tx.order.create` writes: totals computed from the
accumulated subtotal and coupon discount, shipping free from 999 up else a
flat 99, tax 18 percent of subtotal rounded, both statuses PENDING, no
gateway ids yet. -/
def mkNewOrder (env : CreateEnv) (inp : CreateInput) (items : List OrderItem)
    (subtotal discount : ℚ) : Order :=
  let shippingCharge : ℚ := if 999 ≤ subtotal then 0 else 99
  let tax : ℚ := (jround (subtotal * (18 / 100)) : ℤ)
  { id := env.newOrderId
    orderNumber := env.orderNumber
    userId := inp.userId
    addressId := inp.addressId
    subtotal := subtotal
    discount := discount
    shippingCharge := shippingCharge
    tax := tax
    total := subtotal - discount + shippingCharge + tax
    paymentMethod := inp.paymentMethod
    paymentStatus := PayStatus.PENDING
    orderStatus := OrdStatus.PENDING
    razorpayOrderId := none
    razorpayPaymentId := none
    items := items
    createdAt := env.now }

/-- POST /api/orders (createOrder), translated step by step: address
ownership check, non-empty cart check, gateway deduplication and stale
cleanup, line totals, coupon step (a separate write, before the
transaction), totals, the creation transaction (COD also deducts stock and
clears the cart inside it), and for RAZORPAY the post-commit gateway call
whose id is then stored on the order.  Returns the final database state and
the response or error. -/
def createOrder (env : CreateEnv) (inp : CreateInput) (s : St) :
    St × Except AppError CreateOutcome :=
  match s.addresses.find? (fun a => decide (a.1 = inp.addressId)) with
  | none => (s, Except.error ⟨"Address not found", 404⟩)
  | some a =>
    if a.2 = inp.userId then
      match s.carts.find? (fun c => decide (c.userId = inp.userId)) with
      | none => (s, Except.error ⟨"Your cart is empty", 400⟩)
      | some cart =>
        if cart.items = [] then (s, Except.error ⟨"Your cart is empty", 400⟩)
        else
          let cutoff := env.now - tenMinutesMs
          match
            (if inp.paymentMethod = PayMethod.RAZORPAY then
              latestBy (s.orders.filter (pendingGatewayMatch inp.userId cutoff))
            else none) with
          | some existingPending => (s, Except.ok (CreateOutcome.existing existingPending))
          | none =>
            let s1 :=
              if inp.paymentMethod = PayMethod.RAZORPAY then
                { s with orders := cancelStale s.orders inp.userId cutoff }
              else s
            let subtotal := cartSubtotal cart.items
            let orderItems := cart.items.map mkOrderItem
            let dc := checkoutCouponStep s1.coupons inp.couponCode subtotal env.now
            let s2 := { s1 with coupons := dc.2 }
            if env.txOk then
              let newOrder := mkNewOrder env inp orderItems subtotal dc.1
              let s3 :=
                if inp.paymentMethod = PayMethod.COD then
                  { s2 with
                    orders := s2.orders ++ [newOrder]
                    products := bumpProducts s2.products (cartRows cart.items) (-1)
                    variants := bumpVariants s2.variants (cartRows cart.items) (-1)
                    carts := clearCart s2.carts cart.id }
                else { s2 with orders := s2.orders ++ [newOrder] }
              match inp.paymentMethod, env.gatewayOrderId with
              | PayMethod.RAZORPAY, some rid =>
                let s4 :=
                  { s3 with
                    orders :=
                      s3.orders.map
                        (fun o =>
                          if o.id = newOrder.id then { o with razorpayOrderId := some rid }
                          else o) }
                (s4, Except.ok (CreateOutcome.created { newOrder with razorpayOrderId := some rid }))
              | PayMethod.RAZORPAY, none =>
                (s3, Except.error ⟨"Payment gateway error. Please try again.", 500⟩)
              | PayMethod.COD, _ => (s3, Except.ok (CreateOutcome.created newOrder))
            else (s2, Except.error ⟨"Transaction failed", 500⟩)
    else (s, Except.error ⟨"Address not found", 404⟩)

/-- Environment of one verifyPayment call: whether the verification
transaction commits, and the paise amount the gateway reports for the
payment (none = the fetch throws). -/
structure VerifyEnv where
  txOk : Bool
  fetchedPaise : Option ℚ

/-- POST /api/orders/verify-payment.  The supplied signature is modelled as
the byte list its hex decoding produces, and the HMAC-SHA256 primitive as an
explicit function argument from (secret, message) to digest bytes, so the
buffer comparison of verifyRazorpaySignature (length check plus
timingSafeEqual) is byte-list equality.  Gates in source order: presence,
signature, order lookup, ownership, gateway amount within 0.01 of the stored
total, then the transaction that marks the order PAID/CONFIRMED, deducts
stock for its items and clears the user cart. -/
def verifyPayment (hmac : String → String → List ℕ) (secret : String)
    (env : VerifyEnv) (userId : ℕ) (oid pid : String) (sig : List ℕ) (s : St) :
    St × Except AppError Order :=
  if oid = "" ∨ pid = "" ∨ sig = [] then
    (s, Except.error ⟨"Missing payment verification details", 400⟩)
  else if sig ≠ hmac secret (oid ++ "|" ++ pid) then
    ({ s with
        orders :=
          s.orders.map
            (fun o =>
              if o.razorpayOrderId = some oid then { o with paymentStatus := PayStatus.FAILED }
              else o) },
      Except.error ⟨"Payment verification failed", 400⟩)
  else
    match s.orders.find? (fun o => decide (o.razorpayOrderId = some oid)) with
    | none => (s, Except.error ⟨"Order not found", 404⟩)
    | some o =>
      if o.userId ≠ userId then
        (s, Except.error ⟨"You are not authorized to verify this payment", 403⟩)
      else
        match env.fetchedPaise with
        | none => (s, Except.error ⟨"Could not verify payment amount", 500⟩)
        | some paise =>
          if 1 / 100 < |paise / 100 - o.total| then
            ({ s with
                orders :=
                  s.orders.map
                    (fun q =>
                      if q.id = o.id then { q with paymentStatus := PayStatus.FAILED } else q) },
              Except.error ⟨"Payment amount does not match order total", 400⟩)
          else if env.txOk then
            let o' :=
              { o with
                paymentStatus := PayStatus.PAID
                orderStatus := OrdStatus.CONFIRMED
                razorpayPaymentId := some pid }
            let s1 :=
              { s with orders := s.orders.map (fun q : Order => if q.id = o.id then o' else q) }
            let s2 :=
              { s1 with
                products := bumpProducts s1.products (orderRows o.items) (-1)
                variants := bumpVariants s1.variants (orderRows o.items) (-1) }
            let s3 :=
              match s2.carts.find? (fun c : Cart => decide (c.userId = o.userId)) with
              | some c => { s2 with carts := clearCart s2.carts c.id }
              | none => s2
            (s3, Except.ok o')
          else (s, Except.error ⟨"Transaction failed", 500⟩)

/-- PUT /api/orders/:id/cancel.  Only PENDING or CONFIRMED orders can be
cancelled; the transaction increments product (and variant) stock by each
item quantity and marks the order CANCELLED, flipping paymentStatus to
REFUNDED when it was PAID. -/
def cancelOrder (userId orderId : ℕ) (s : St) : St × Except AppError Unit :=
  match s.orders.find? (fun o => decide (o.id = orderId)) with
  | none => (s, Except.error ⟨"Order not found", 404⟩)
  | some o =>
    if o.userId ≠ userId then (s, Except.error ⟨"Access denied", 403⟩)
    else if o.orderStatus = OrdStatus.PENDING ∨ o.orderStatus = OrdStatus.CONFIRMED then
      let s1 :=
        { s with
          products := bumpProducts s.products (orderRows o.items) 1
          variants := bumpVariants s.variants (orderRows o.items) 1
          orders :=
            s.orders.map
              (fun q =>
                if q.id = orderId then
                  { q with
                    orderStatus := OrdStatus.CANCELLED
                    paymentStatus :=
                      if o.paymentStatus = PayStatus.PAID then PayStatus.REFUNDED
                      else o.paymentStatus }
                else q) }
      (s1, Except.ok ())
    else (s, Except.error ⟨"Order cannot be cancelled at this stage", 400⟩)

/-! Concrete rows and environments used by the witnesses and
counterexamples below. -/

/-- A cart line: 2 units of product 1 at price 500 (no variant). -/
def itemA : CartItem :=
  { productId := 1, variantId := none, quantity := 2
    productPrice := 500, productDiscountPrice := none, variantAdditionalPrice := 0 }

/-- A cart line: 1 unit of product 1 at price 500. -/
def itemB : CartItem :=
  { productId := 1, variantId := none, quantity := 1
    productPrice := 500, productDiscountPrice := none, variantAdditionalPrice := 0 }

/-- A cart line with a variant: 3 units of product 2, variant 31. -/
def itemV : CartItem :=
  { productId := 2, variantId := some 31, quantity := 3
    productPrice := 200, productDiscountPrice := none, variantAdditionalPrice := 50 }

/-- An active FIXED-50 coupon with code SAVE50 and no minimum. -/
def couponSave : Coupon :=
  { id := 3, code := "SAVE50", discountType := DiscountType.FIXED, discountValue := 50
    minPurchase := 0, maxDiscount := none, usageLimit := 10, usedCount := 0
    validFrom := 0, validUntil := 1000000, isActive := true }

/-- An active 10-percent coupon capped at 500, minimum purchase 1000. -/
def couponWelcome : Coupon :=
  { id := 4, code := "WELCOME10", discountType := DiscountType.PERCENTAGE, discountValue := 10
    minPurchase := 1000, maxDiscount := some 500, usageLimit := 100, usedCount := 0
    validFrom := 0, validUntil := 1000000, isActive := true }

/-- An inactive coupon. -/
def couponOff : Coupon :=
  { id := 5, code := "OFF", discountType := DiscountType.FIXED, discountValue := 20
    minPurchase := 0, maxDiscount := none, usageLimit := 10, usedCount := 0
    validFrom := 0, validUntil := 1000000, isActive := false }

/-- The cart of user 7 holding itemA (subtotal 1000). -/
def cartA : Cart := { id := 11, userId := 7, items := [itemA] }

/-- The cart of user 7 holding itemB (subtotal 500). -/
def cartB : Cart := { id := 11, userId := 7, items := [itemB] }

/-- The cart of user 7 holding itemA and itemV (subtotal 1750). -/
def cartV : Cart := { id := 11, userId := 7, items := [itemA, itemV] }

/-- Base database state: two products, one variant, three coupons, the cart
of user 7, the address 21 owned by user 7, no orders. -/
def baseSt : St :=
  { products := [(1, 10), (2, 8)], variants := [(31, 5)]
    coupons := [couponSave, couponWelcome, couponOff]
    carts := [cartA], addresses := [(21, 7)], orders := [] }

/-- Environment: clock 5 ms, committing transaction, no gateway call. -/
def envCod : CreateEnv :=
  { now := 5, txOk := true, gatewayOrderId := none, newOrderId := 100, orderNumber := "HLM-1" }

/-- Same clock but the creation transaction aborts. -/
def envCodFail : CreateEnv := { envCod with txOk := false }

/-- Committing environment whose gateway call returns order id rz1. -/
def envRzp : CreateEnv := { envCod with gatewayOrderId := some "rz1" }

/-- A second-call environment 5 minutes (300000 ms) later. -/
def envRzp2 : CreateEnv :=
  { now := 300005, txOk := true, gatewayOrderId := some "rz2", newOrderId := 101
    orderNumber := "HLM-2" }

/-- COD checkout request of user 7 with no coupon. -/
def inpCod : CreateInput :=
  { userId := 7, addressId := 21, paymentMethod := PayMethod.COD, couponCode := none }

/-- COD checkout supplying the SAVE50 code in lower case. -/
def inpCodSaveLower : CreateInput := { inpCod with couponCode := some "save50" }

/-- COD checkout supplying SAVE50 exactly as stored. -/
def inpCodSave : CreateInput := { inpCod with couponCode := some "SAVE50" }

/-- COD checkout supplying the WELCOME10 code. -/
def inpCodWelcome : CreateInput := { inpCod with couponCode := some "WELCOME10" }

/-- COD checkout supplying the inactive OFF code. -/
def inpCodOff : CreateInput := { inpCod with couponCode := some "OFF" }

/-- RAZORPAY checkout request of user 7 with no coupon. -/
def inpRzp : CreateInput := { inpCod with paymentMethod := PayMethod.RAZORPAY }

/-- The gateway order row the RAZORPAY scenario creates: subtotal 1000,
discount 0, shipping 0, tax 180, total 1180, remote id rz1. -/
def ordRzp : Order :=
  { mkNewOrder envRzp inpRzp [mkOrderItem itemA] 1000 0 with razorpayOrderId := some "rz1" }

/-- State holding the pending gateway order. -/
def stRzp : St := { baseSt with orders := [ordRzp] }

/-- State with an empty cart row for user 7. -/
def stEmptyCart : St := { baseSt with carts := [{ id := 11, userId := 7, items := [] }] }

/-- The successful validate-coupon response for SAVE50 at subtotal 1000. -/
def pSave : CouponPreview :=
  { code := "SAVE50", discountType := DiscountType.FIXED, discountValue := 50
    discount := 50, minPurchase := 0, maxDiscount := none }

/-- Base state with the subtotal-500 cart instead. -/
def stCartB : St := { baseSt with carts := [cartB] }

/-- Base state with the two-line cart (one line with a variant). -/
def stCartV : St := { baseSt with carts := [cartV] }

/-- A paid, confirmed copy of the gateway order. -/
def ordPaid : Order :=
  { ordRzp with paymentStatus := PayStatus.PAID, orderStatus := OrdStatus.CONFIRMED }

/-- State holding the paid, confirmed order. -/
def stPaid : St := { baseSt with orders := [ordPaid] }

/-- A delivered copy of the gateway order. -/
def ordDone : Order := { ordRzp with orderStatus := OrdStatus.DELIVERED }

/-- State holding the delivered order. -/
def stDone : St := { baseSt with orders := [ordDone] }

/-- A stand-in HMAC primitive for concrete verification scenarios. -/
def hmacW : String → String → List ℕ := fun _ _ => [7, 7]

/-- Verification environment: committing transaction, gateway reports
118000 paise (1180 rupees, exactly the stored total of ordRzp). -/
def venvOk : VerifyEnv := { txOk := true, fetchedPaise := some 118000 }

/-- Verification environment whose gateway-reported amount (99999 paise)
differs from the 1180-rupee total by far more than 0.01. -/
def venvBad : VerifyEnv := { txOk := true, fetchedPaise := some 99999 }

/-! Theorems for the specification claims. -/

/-- C9: for every createOrder call by an authenticated user whose address
check passes but whose cart is absent or has no items, the call fails with
BadRequest ("Your cart is empty", 400) and the state is returned untouched:
no Order row, no OrderItem row, no stock change and no coupon change. -/
theorem createOrder_empty_cart_rejected (env : CreateEnv) (inp : CreateInput) (s : St)
    (a : ℕ × ℕ)
    (haddr : s.addresses.find? (fun x => decide (x.1 = inp.addressId)) = some a)
    (hown : a.2 = inp.userId)
    (hempty : ∀ c : Cart,
      s.carts.find? (fun c => decide (c.userId = inp.userId)) = some c → c.items = []) :
    createOrder env inp s = (s, Except.error ⟨"Your cart is empty", 400⟩) := by
  unfold createOrder
  rw [haddr]
  rcases hfind : s.carts.find? (fun c => decide (c.userId = inp.userId)) with _ | c
  · simp [hown, hfind]
  · have hc := hempty c hfind
    simp [hown, hfind, hc]

/-- Witness for C9 at a concrete state with an empty cart row. -/
theorem createOrder_empty_cart_rejected_witness :
    stEmptyCart.addresses.find? (fun x => decide (x.1 = inpCod.addressId)) = some (21, 7) ∧
    ((21, 7) : ℕ × ℕ).2 = inpCod.userId ∧
    (∀ c : Cart,
      stEmptyCart.carts.find? (fun c => decide (c.userId = inpCod.userId)) = some c →
        c.items = []) ∧
    createOrder envCod inpCod stEmptyCart = (stEmptyCart, Except.error ⟨"Your cart is empty", 400⟩) := by
  have hfind : stEmptyCart.carts.find? (fun c => decide (c.userId = inpCod.userId)) =
      some { id := 11, userId := 7, items := [] } := by
    norm_num +decide [stEmptyCart, inpCod, baseSt, List.find?]
  have hempty : ∀ c : Cart,
      stEmptyCart.carts.find? (fun c => decide (c.userId = inpCod.userId)) = some c →
        c.items = [] := by
    intro c h
    rw [hfind] at h
    injection h with h2
    rw [← h2]
  have haddr : stEmptyCart.addresses.find? (fun x => decide (x.1 = inpCod.addressId)) =
      some (21, 7) := by
    norm_num +decide [stEmptyCart, inpCod, baseSt, List.find?]
  exact ⟨haddr, rfl, hempty,
    createOrder_empty_cart_rejected envCod inpCod stEmptyCart (21, 7) haddr rfl hempty⟩

/-- C1 (amended): the preview endpoint and the checkout coupon step agree to
the currency unit whenever the supplied code is fixed by uppercasing (in
particular whenever the user types the code exactly as stored, since stored
codes are matched case-sensitively at checkout): if the preview succeeds on a
positive subtotal, the discount it reports is exactly the checkout discount
for the same code, subtotal and clock, rounded to the nearest unit.  Without
the uppercase proviso the claim fails, because validateCoupon uppercases the
supplied code before the lookup while createOrder looks it up verbatim. -/
theorem validateCoupon_matches_checkout_for_uppercase_codes
    (s : St) (code : String) (subtotal : ℚ) (now : ℤ) (p : CouponPreview)
    (hcode : jsToUpper code = code) (hpos : 0 < subtotal)
    (hprev : validateCoupon s code subtotal now = Except.ok p) :
    p.discount = jround ((checkoutCouponStep s.coupons (some code) subtotal now).1) := by
  unfold validateCoupon at hprev
  rw [hcode] at hprev
  by_cases h0 : code = ""
  · rw [if_pos h0] at hprev; exact Except.noConfusion hprev
  rw [if_neg h0] at hprev
  rcases hfind : findCoupon s.coupons code with _ | c
  · simp only [hfind] at hprev
    exact Except.noConfusion hprev
  simp only [hfind] at hprev
  by_cases hact : c.isActive
  case neg =>
    rw [if_pos (by simp [hact])] at hprev; exact Except.noConfusion hprev
  rw [if_neg (by simp [hact])] at hprev
  by_cases hlim : c.usageLimit ≤ c.usedCount
  · rw [if_pos hlim] at hprev; exact Except.noConfusion hprev
  rw [if_neg hlim] at hprev
  by_cases hfrom : now < c.validFrom
  · rw [if_pos hfrom] at hprev; exact Except.noConfusion hprev
  rw [if_neg hfrom] at hprev
  by_cases huntil : c.validUntil < now
  · rw [if_pos huntil] at hprev; exact Except.noConfusion hprev
  rw [if_neg huntil] at hprev
  by_cases hmin : 0 < subtotal ∧ subtotal < c.minPurchase
  · rw [if_pos hmin] at hprev; exact Except.noConfusion hprev
  rw [if_neg hmin] at hprev
  have hminle : c.minPurchase ≤ subtotal := by
    rcases not_and_or.mp hmin with h | h
    · exact absurd hpos h
    · exact le_of_not_lt h
  have hok : couponOkAtCheckout c now subtotal = true := by
    simp [couponOkAtCheckout, hact, lt_of_not_le hlim, le_of_not_lt hfrom,
      le_of_not_lt huntil, hminle]
  have hp := hprev
  injection hp with hp2
  rw [← hp2]
  simp [checkoutCouponStep, h0, hfind, hok, if_pos hpos]

/-- C1 counterexample: coupon SAVE50 (fixed 50 off, no minimum) supplied as
"save50" at subtotal 1000.  The preview uppercases the code, finds the
coupon and reports a discount of 50; createOrder looks the code up verbatim,
finds nothing, and applies a discount of 0 on the very same request, a gap
far beyond one currency unit. -/
theorem validateCoupon_checkout_disagree_counterexample :
    (validateCoupon baseSt "save50" 1000 5).toOption.map CouponPreview.discount = some 50 ∧
    (createOrder envCod inpCodSaveLower baseSt).2.toOption.map
      (fun r => (CreateOutcome.order r).discount) = some 0 ∧
    ¬ (|(50 : ℚ) - 0| ≤ 1) := by
  refine ⟨?_, ?_, by norm_num⟩
  · norm_num +decide [validateCoupon, findCoupon, jsToUpper, baseSt, couponSave,
      couponWelcome, couponOff, couponDiscount, jround, List.find?, Except.toOption]
  · norm_num +decide [createOrder, baseSt, cartA, itemA, inpCodSaveLower, inpCod, envCod,
      tenMinutesMs, findCoupon, checkoutCouponStep, couponOkAtCheckout, couponDiscount,
      cartSubtotal, unitPrice, mkOrderItem, mkNewOrder, jround, latestBy, cancelStale,
      pendingGatewayMatch, bumpProducts, bumpVariants, adjStock, cartRows, clearCart,
      incCouponUsed, couponSave, couponWelcome, couponOff, List.find?, Except.toOption,
      CreateOutcome.order]

/-- Witness for C1 (amended) at the SAVE50 coupon typed in upper case. -/
theorem validateCoupon_matches_checkout_witness :
    jsToUpper "SAVE50" = "SAVE50" ∧ (0 : ℚ) < 1000 ∧
    validateCoupon baseSt "SAVE50" 1000 5 = Except.ok pSave ∧
    pSave.discount = jround ((checkoutCouponStep baseSt.coupons (some "SAVE50") 1000 5).1) := by
  have hprev : validateCoupon baseSt "SAVE50" 1000 5 = Except.ok pSave := by
    norm_num +decide [validateCoupon, findCoupon, jsToUpper, baseSt, couponSave,
      couponWelcome, couponOff, couponDiscount, jround, pSave, List.find?]
  exact ⟨by decide, by norm_num,
    hprev,
    validateCoupon_matches_checkout_for_uppercase_codes baseSt "SAVE50" 1000 5 pSave
      (by decide) (by norm_num) hprev⟩

/-- Membership in cancelStale preserves order ids. -/
theorem cancelStale_mem_id (l : List Order) (u : ℕ) (cf : ℤ) :
    ∀ q ∈ cancelStale l u cf, ∃ q₀ ∈ l, q.id = q₀.id := by
  intro q hq
  unfold cancelStale at hq
  rcases List.mem_map.mp hq with ⟨q₀, hq₀, rfl⟩
  refine ⟨q₀, hq₀, ?_⟩
  split <;> rfl

/-- C2 (amended): the usedCount increment of an applied coupon is a separate
write issued before the order-creation transaction, not inside it.  When the
transaction aborts, the coupon table keeps the result of the checkout coupon
step (incremented whenever a valid coupon was applied) while no order row
with the fresh order id exists; stock and carts are untouched and the call
fails with 500.  If the transaction commits, both effects take place, so
atomicity of the pair is exactly what fails. -/
theorem coupon_increment_outside_transaction
    (env : CreateEnv) (inp : CreateInput) (s : St) (a : ℕ × ℕ) (cart : Cart)
    (haddr : s.addresses.find? (fun x => decide (x.1 = inp.addressId)) = some a)
    (hown : a.2 = inp.userId)
    (hcart : s.carts.find? (fun c => decide (c.userId = inp.userId)) = some cart)
    (hne : cart.items ≠ [])
    (hnopend : inp.paymentMethod = PayMethod.RAZORPAY →
      s.orders.filter (pendingGatewayMatch inp.userId (env.now - tenMinutesMs)) = [])
    (hfresh : ∀ q ∈ s.orders, q.id ≠ env.newOrderId)
    (htx : env.txOk = false) :
    (createOrder env inp s).2 = Except.error ⟨"Transaction failed", 500⟩ ∧
    (createOrder env inp s).1.coupons =
      (checkoutCouponStep s.coupons inp.couponCode (cartSubtotal cart.items) env.now).2 ∧
    (∀ q ∈ (createOrder env inp s).1.orders, q.id ≠ env.newOrderId) ∧
    (createOrder env inp s).1.products = s.products ∧
    (createOrder env inp s).1.variants = s.variants ∧
    (createOrder env inp s).1.carts = s.carts := by
  have key : createOrder env inp s =
      ({ s with
          orders :=
            if inp.paymentMethod = PayMethod.RAZORPAY then
              cancelStale s.orders inp.userId (env.now - tenMinutesMs)
            else s.orders
          coupons :=
            (checkoutCouponStep s.coupons inp.couponCode
              (cartSubtotal cart.items) env.now).2 },
        Except.error ⟨"Transaction failed", 500⟩) := by
    unfold createOrder
    rw [haddr]
    cases hpm : inp.paymentMethod
    · simp [hown, hcart, hne, htx, hpm]
    · simp [hown, hcart, hne, htx, hpm, hnopend hpm, latestBy]
  refine ⟨by rw [key], by rw [key], ?_, by rw [key], by rw [key], by rw [key]⟩
  rw [key]
  intro q hq
  simp only [] at hq
  split at hq
  · rcases cancelStale_mem_id _ _ _ q hq with ⟨q₀, hq₀, hid⟩
    rw [hid]
    exact hfresh q₀ hq₀
  · exact hfresh q hq

/-- C2 counterexample: valid coupon SAVE50 applied to a COD checkout whose
creation transaction aborts.  The final state has usedCount 1 yet no order
row at all, so the increment did not happen atomically with the creation. -/
theorem coupon_increment_not_atomic_counterexample :
    (createOrder envCodFail inpCodSave baseSt).1.coupons =
      [{ couponSave with usedCount := 1 }, couponWelcome, couponOff] ∧
    (createOrder envCodFail inpCodSave baseSt).1.orders = [] ∧
    (createOrder envCodFail inpCodSave baseSt).2 =
      Except.error ⟨"Transaction failed", 500⟩ := by
  refine ⟨?_, ?_, ?_⟩ <;>
    norm_num +decide [createOrder, baseSt, cartA, itemA, inpCodSave, inpCod, envCodFail,
      envCod, tenMinutesMs, findCoupon, checkoutCouponStep, couponOkAtCheckout,
      couponDiscount, cartSubtotal, unitPrice, mkOrderItem, jround, latestBy, cancelStale,
      pendingGatewayMatch, incCouponUsed, couponSave, couponWelcome, couponOff, List.find?]

/-- Witness for C2 (amended) at the aborting COD checkout with SAVE50. -/
theorem coupon_increment_outside_transaction_witness :
    envCodFail.txOk = false ∧ cartA.items ≠ [] ∧
    ((createOrder envCodFail inpCodSave baseSt).2 =
        Except.error ⟨"Transaction failed", 500⟩ ∧
      (createOrder envCodFail inpCodSave baseSt).1.coupons =
        (checkoutCouponStep baseSt.coupons inpCodSave.couponCode
          (cartSubtotal cartA.items) envCodFail.now).2 ∧
      (∀ q ∈ (createOrder envCodFail inpCodSave baseSt).1.orders,
        q.id ≠ envCodFail.newOrderId) ∧
      (createOrder envCodFail inpCodSave baseSt).1.products = baseSt.products ∧
      (createOrder envCodFail inpCodSave baseSt).1.variants = baseSt.variants ∧
      (createOrder envCodFail inpCodSave baseSt).1.carts = baseSt.carts) := by
  refine ⟨rfl, by decide, ?_⟩
  refine coupon_increment_outside_transaction envCodFail inpCodSave baseSt (21, 7) cartA
    ?_ rfl ?_ (by decide) (fun h => absurd h (by decide)) ?_ rfl
  · norm_num +decide [baseSt, inpCodSave, inpCod, List.find?]
  · norm_num +decide [baseSt, cartA, itemA, inpCodSave, inpCod, List.find?]
  · intro q hq
    simp [baseSt] at hq

/-- C3: when every earlier gate passes (fields present, signature valid,
order found, caller owns it) and the gateway-reported amount differs from
the stored total by more than 0.01, verifyPayment fails with BadRequest
("Payment amount does not match order total", 400), the located order has
its paymentStatus set to FAILED, and no product stock, variant stock or
cart is touched. -/
theorem verifyPayment_amount_mismatch_rejected
    (hmac : String → String → List ℕ) (secret : String) (env : VerifyEnv)
    (uid : ℕ) (oid pid : String) (sig : List ℕ) (s : St) (o : Order) (paise : ℚ)
    (hoid : oid ≠ "") (hpid : pid ≠ "") (hsig : sig ≠ [])
    (hgood : sig = hmac secret (oid ++ "|" ++ pid))
    (hfind : s.orders.find? (fun q => decide (q.razorpayOrderId = some oid)) = some o)
    (hown : o.userId = uid)
    (hfetch : env.fetchedPaise = some paise)
    (hgap : 1 / 100 < |paise / 100 - o.total|) :
    (verifyPayment hmac secret env uid oid pid sig s).2 =
      Except.error ⟨"Payment amount does not match order total", 400⟩ ∧
    (verifyPayment hmac secret env uid oid pid sig s).1.products = s.products ∧
    (verifyPayment hmac secret env uid oid pid sig s).1.variants = s.variants ∧
    (verifyPayment hmac secret env uid oid pid sig s).1.carts = s.carts ∧
    (verifyPayment hmac secret env uid oid pid sig s).1.orders =
      s.orders.map (fun q : Order =>
        if q.id = o.id then { q with paymentStatus := PayStatus.FAILED } else q) ∧
    (∀ q ∈ (verifyPayment hmac secret env uid oid pid sig s).1.orders,
      q.id = o.id → q.paymentStatus = PayStatus.FAILED) := by
  have key : verifyPayment hmac secret env uid oid pid sig s =
      ({ s with
          orders :=
            s.orders.map (fun q : Order =>
              if q.id = o.id then { q with paymentStatus := PayStatus.FAILED } else q) },
        Except.error ⟨"Payment amount does not match order total", 400⟩) := by
    unfold verifyPayment
    rw [if_neg (by simp [hoid, hpid, hsig])]
    rw [if_neg (by simp [hgood])]
    simp only [hfind]
    rw [if_neg (by simp [hown])]
    simp only [hfetch]
    rw [if_pos hgap]
  refine ⟨by rw [key], by rw [key], by rw [key], by rw [key], by rw [key], ?_⟩
  rw [key]
  intro q hq hid
  rcases List.mem_map.mp hq with ⟨q₀, hq₀, rfl⟩
  by_cases h : q₀.id = o.id
  · simp [h]
  · rw [if_neg h] at hid
    exact absurd hid h

/-- Witness for C3: the stored gateway order totals 1180 rupees but the
gateway reports 99999 paise, a mismatch far above 0.01. -/
theorem verifyPayment_amount_mismatch_witness :
    stRzp.orders.find? (fun q => decide (q.razorpayOrderId = some "rz1")) = some ordRzp ∧
    (1 : ℚ) / 100 < |(99999 : ℚ) / 100 - ordRzp.total| ∧
    (verifyPayment hmacW "sec" venvBad 7 "rz1" "pay1" [7, 7] stRzp).2 =
      Except.error ⟨"Payment amount does not match order total", 400⟩ ∧
    (verifyPayment hmacW "sec" venvBad 7 "rz1" "pay1" [7, 7] stRzp).1.products =
      stRzp.products ∧
    (verifyPayment hmacW "sec" venvBad 7 "rz1" "pay1" [7, 7] stRzp).1.carts = stRzp.carts := by
  have hfind : stRzp.orders.find? (fun q => decide (q.razorpayOrderId = some "rz1")) =
      some ordRzp := by
    norm_num +decide [stRzp, ordRzp, baseSt, mkNewOrder, envRzp, envCod, inpRzp, inpCod,
      List.find?]
  have htot : ordRzp.total = 1180 := by
    norm_num [ordRzp, mkNewOrder, envRzp, envCod, inpRzp, inpCod, jround]
  have hgap : (1 : ℚ) / 100 < |(99999 : ℚ) / 100 - ordRzp.total| := by
    rw [htot, abs_sub_comm, abs_of_nonneg (by norm_num)]
    norm_num
  have h := verifyPayment_amount_mismatch_rejected hmacW "sec" venvBad 7 "rz1" "pay1"
    [7, 7] stRzp ordRzp 99999 (by decide) (by decide) (by decide) (by decide) hfind rfl rfl hgap
  exact ⟨hfind, hgap, h.1, h.2.1, h.2.2.2.1⟩

/-- C4: when the supplied signature bytes differ from the HMAC-SHA256 of
"orderId|paymentId" under the server secret, verifyPayment fails with
BadRequest ("Payment verification failed", 400), every order whose
razorpayOrderId is that gateway order id ends with paymentStatus FAILED, no
other row changes, stock and carts are untouched, and no order transitions
to PAID (every PAID order of the final state is an unchanged row of the
initial state). -/
theorem verifyPayment_bad_signature_rejected
    (hmac : String → String → List ℕ) (secret : String) (env : VerifyEnv)
    (uid : ℕ) (oid pid : String) (sig : List ℕ) (s : St)
    (hoid : oid ≠ "") (hpid : pid ≠ "") (hsig : sig ≠ [])
    (hbad : sig ≠ hmac secret (oid ++ "|" ++ pid)) :
    (verifyPayment hmac secret env uid oid pid sig s).2 =
      Except.error ⟨"Payment verification failed", 400⟩ ∧
    (verifyPayment hmac secret env uid oid pid sig s).1.products = s.products ∧
    (verifyPayment hmac secret env uid oid pid sig s).1.variants = s.variants ∧
    (verifyPayment hmac secret env uid oid pid sig s).1.carts = s.carts ∧
    (verifyPayment hmac secret env uid oid pid sig s).1.orders =
      s.orders.map (fun q : Order =>
        if q.razorpayOrderId = some oid then { q with paymentStatus := PayStatus.FAILED }
        else q) ∧
    (∀ q ∈ (verifyPayment hmac secret env uid oid pid sig s).1.orders,
      q.razorpayOrderId = some oid → q.paymentStatus = PayStatus.FAILED) ∧
    (∀ q ∈ (verifyPayment hmac secret env uid oid pid sig s).1.orders,
      q.paymentStatus = PayStatus.PAID → q ∈ s.orders) := by
  have key : verifyPayment hmac secret env uid oid pid sig s =
      ({ s with
          orders :=
            s.orders.map (fun q : Order =>
              if q.razorpayOrderId = some oid then { q with paymentStatus := PayStatus.FAILED }
              else q) },
        Except.error ⟨"Payment verification failed", 400⟩) := by
    unfold verifyPayment
    rw [if_neg (by simp [hoid, hpid, hsig])]
    rw [if_pos hbad]
  refine ⟨by rw [key], by rw [key], by rw [key], by rw [key], by rw [key], ?_, ?_⟩
  · rw [key]
    intro q hq hid
    rcases List.mem_map.mp hq with ⟨q₀, hq₀, rfl⟩
    by_cases h : q₀.razorpayOrderId = some oid
    · simp [h]
    · rw [if_neg h] at hid
      exact absurd hid h
  · rw [key]
    intro q hq hpaid
    rcases List.mem_map.mp hq with ⟨q₀, hq₀, rfl⟩
    by_cases h : q₀.razorpayOrderId = some oid
    · rw [if_pos h] at hpaid
      exact absurd hpaid (by simp)
    · rw [if_neg h]
      exact hq₀

/-- Witness for C4: signature bytes [1] differ from the stand-in HMAC value
[7, 7]; the pending gateway order is marked FAILED and nothing is paid. -/
theorem verifyPayment_bad_signature_witness :
    ([1] : List ℕ) ≠ hmacW "sec" ("rz1" ++ "|" ++ "pay1") ∧
    (verifyPayment hmacW "sec" venvOk 7 "rz1" "pay1" [1] stRzp).2 =
      Except.error ⟨"Payment verification failed", 400⟩ ∧
    (verifyPayment hmacW "sec" venvOk 7 "rz1" "pay1" [1] stRzp).1.orders =
      stRzp.orders.map (fun q : Order =>
        if q.razorpayOrderId = some "rz1" then { q with paymentStatus := PayStatus.FAILED }
        else q) ∧
    (verifyPayment hmacW "sec" venvOk 7 "rz1" "pay1" [1] stRzp).1.products =
      stRzp.products := by
  have h := verifyPayment_bad_signature_rejected hmacW "sec" venvOk 7 "rz1" "pay1" [1]
    stRzp (by decide) (by decide) (by decide) (by decide)
  exact ⟨by decide, h.1, h.2.2.2.2.1, h.2.1⟩

/-- Inversion of a successful creation: the checks that must have passed,
the exact order row produced (mkNewOrder, with the gateway id patched on for
RAZORPAY), and the exact final state, for each payment method. -/
theorem createOrder_created_inversion
    (env : CreateEnv) (inp : CreateInput) (s : St) (o : Order)
    (h : (createOrder env inp s).2 = Except.ok (CreateOutcome.created o)) :
    ∃ a cart,
      s.addresses.find? (fun x => decide (x.1 = inp.addressId)) = some a ∧
      a.2 = inp.userId ∧
      s.carts.find? (fun c => decide (c.userId = inp.userId)) = some cart ∧
      cart.items ≠ [] ∧ env.txOk = true ∧
      ((inp.paymentMethod = PayMethod.COD ∧
        o = mkNewOrder env inp (cart.items.map mkOrderItem) (cartSubtotal cart.items)
          (checkoutCouponStep s.coupons inp.couponCode (cartSubtotal cart.items) env.now).1 ∧
        createOrder env inp s =
          ({ s with
              coupons :=
                (checkoutCouponStep s.coupons inp.couponCode
                  (cartSubtotal cart.items) env.now).2
              orders := s.orders ++ [o]
              products := bumpProducts s.products (cartRows cart.items) (-1)
              variants := bumpVariants s.variants (cartRows cart.items) (-1)
              carts := clearCart s.carts cart.id },
            Except.ok (CreateOutcome.created o))) ∨
       (∃ rid,
         inp.paymentMethod = PayMethod.RAZORPAY ∧ env.gatewayOrderId = some rid ∧
         latestBy (s.orders.filter
           (pendingGatewayMatch inp.userId (env.now - tenMinutesMs))) = none ∧
         o = { mkNewOrder env inp (cart.items.map mkOrderItem) (cartSubtotal cart.items)
                 (checkoutCouponStep s.coupons inp.couponCode (cartSubtotal cart.items)
                   env.now).1 with
               razorpayOrderId := some rid } ∧
         createOrder env inp s =
           ({ s with
               coupons :=
                 (checkoutCouponStep s.coupons inp.couponCode
                   (cartSubtotal cart.items) env.now).2
               orders :=
                 (cancelStale s.orders inp.userId (env.now - tenMinutesMs) ++
                     [mkNewOrder env inp (cart.items.map mkOrderItem)
                       (cartSubtotal cart.items)
                       (checkoutCouponStep s.coupons inp.couponCode
                         (cartSubtotal cart.items) env.now).1]).map
                   (fun q : Order =>
                     if q.id = env.newOrderId then { q with razorpayOrderId := some rid }
                     else q) },
             Except.ok (CreateOutcome.created o)))) := by
  rcases ha : s.addresses.find? (fun x => decide (x.1 = inp.addressId)) with _ | a
  · have key : (createOrder env inp s).2 = Except.error ⟨"Address not found", 404⟩ := by
      unfold createOrder; simp [ha]
    rw [key] at h; exact Except.noConfusion h
  by_cases hown : a.2 = inp.userId
  case neg =>
    have key : (createOrder env inp s).2 = Except.error ⟨"Address not found", 404⟩ := by
      unfold createOrder; simp [ha, hown]
    rw [key] at h; exact Except.noConfusion h
  rcases hc : s.carts.find? (fun c => decide (c.userId = inp.userId)) with _ | cart
  · have key : (createOrder env inp s).2 = Except.error ⟨"Your cart is empty", 400⟩ := by
      unfold createOrder; simp [ha, hown, hc]
    rw [key] at h; exact Except.noConfusion h
  by_cases hni : cart.items = []
  · have key : (createOrder env inp s).2 = Except.error ⟨"Your cart is empty", 400⟩ := by
      unfold createOrder; simp [ha, hown, hc, hni]
    rw [key] at h; exact Except.noConfusion h
  rcases hd :
      (if inp.paymentMethod = PayMethod.RAZORPAY then
        latestBy (s.orders.filter
          (pendingGatewayMatch inp.userId (env.now - tenMinutesMs)))
      else none) with _ | ex
  swap
  · have key : (createOrder env inp s).2 = Except.ok (CreateOutcome.existing ex) := by
      unfold createOrder; simp [ha, hown, hc, hni, hd]
    rw [key] at h; simp at h
  by_cases htx : env.txOk = true
  case neg =>
    have key : (createOrder env inp s).2 = Except.error ⟨"Transaction failed", 500⟩ := by
      unfold createOrder; simp [ha, hown, hc, hni, hd, htx]
    rw [key] at h; exact Except.noConfusion h
  refine ⟨a, cart, ha, hown, hc, hni, htx, ?_⟩
  rcases hpm : inp.paymentMethod with _ | _
  · -- COD path
    have keyC : createOrder env inp s =
        ({ s with
            coupons :=
              (checkoutCouponStep s.coupons inp.couponCode
                (cartSubtotal cart.items) env.now).2
            orders :=
              s.orders ++
                [mkNewOrder env inp (cart.items.map mkOrderItem) (cartSubtotal cart.items)
                  (checkoutCouponStep s.coupons inp.couponCode (cartSubtotal cart.items)
                    env.now).1]
            products := bumpProducts s.products (cartRows cart.items) (-1)
            variants := bumpVariants s.variants (cartRows cart.items) (-1)
            carts := clearCart s.carts cart.id },
          Except.ok (CreateOutcome.created
            (mkNewOrder env inp (cart.items.map mkOrderItem) (cartSubtotal cart.items)
              (checkoutCouponStep s.coupons inp.couponCode (cartSubtotal cart.items)
                env.now).1))) := by
      unfold createOrder
      simp [ha, hown, hc, hni, hd, htx, hpm]
    rw [keyC] at h
    simp only [Except.ok.injEq, CreateOutcome.created.injEq] at h
    subst h
    exact Or.inl ⟨rfl, rfl, keyC⟩
  · -- RAZORPAY path
    have hlat : latestBy (s.orders.filter
        (pendingGatewayMatch inp.userId (env.now - tenMinutesMs))) = none := by
      rw [if_pos hpm] at hd; exact hd
    rcases hg : env.gatewayOrderId with _ | rid
    · have key : (createOrder env inp s).2 =
          Except.error ⟨"Payment gateway error. Please try again.", 500⟩ := by
        unfold createOrder; simp [ha, hown, hc, hni, hlat, htx, hpm, hg]
      rw [key] at h; exact Except.noConfusion h
    have keyR : createOrder env inp s =
        ({ s with
            coupons :=
              (checkoutCouponStep s.coupons inp.couponCode
                (cartSubtotal cart.items) env.now).2
            orders :=
              (cancelStale s.orders inp.userId (env.now - tenMinutesMs) ++
                  [mkNewOrder env inp (cart.items.map mkOrderItem)
                    (cartSubtotal cart.items)
                    (checkoutCouponStep s.coupons inp.couponCode
                      (cartSubtotal cart.items) env.now).1]).map
                (fun q : Order =>
                  if q.id = env.newOrderId then { q with razorpayOrderId := some rid }
                  else q) },
          Except.ok (CreateOutcome.created
            { mkNewOrder env inp (cart.items.map mkOrderItem) (cartSubtotal cart.items)
                (checkoutCouponStep s.coupons inp.couponCode (cartSubtotal cart.items)
                  env.now).1 with
              razorpayOrderId := some rid })) := by
      unfold createOrder
      simp [ha, hown, hc, hni, hlat, htx, hpm, hg, mkNewOrder]
    rw [keyR] at h
    simp only [Except.ok.injEq, CreateOutcome.created.injEq] at h
    subst h
    exact Or.inr ⟨rid, rfl, rfl, hlat, rfl, keyR⟩

/-- C6: every order produced by createOrder satisfies
total = subtotal - discount + shippingCharge + tax exactly, with
tax = round(subtotal * 0.18) and shippingCharge = 0 when subtotal is at
least 999 and 99 otherwise; in particular subtotal 1000 with the
10-percent-capped-at-500 coupon WELCOME10 yields discount 100 and total
1080, and subtotal 500 with no coupon yields total 689. -/
theorem createOrder_total_formula :
    (∀ env inp s o, (createOrder env inp s).2 = Except.ok (CreateOutcome.created o) →
      o.total = o.subtotal - o.discount + o.shippingCharge + o.tax ∧
      o.tax = (jround (o.subtotal * (18 / 100)) : ℚ) ∧
      o.shippingCharge = (if 999 ≤ o.subtotal then (0 : ℚ) else 99)) ∧
    (createOrder envCod inpCodWelcome baseSt).2.toOption.map
      (fun r => ((CreateOutcome.order r).discount, (CreateOutcome.order r).total)) =
      some (100, 1080) ∧
    (createOrder envCod inpCod stCartB).2.toOption.map
      (fun r => (CreateOutcome.order r).total) = some 689 := by
  refine ⟨?_, ?_, ?_⟩
  · intro env inp s o h
    rcases createOrder_created_inversion env inp s o h with
      ⟨a, cart, _, _, _, _, _, hcase⟩
    rcases hcase with ⟨_, ho, _⟩ | ⟨rid, _, _, _, ho, _⟩ <;>
      · subst ho
        simp [mkNewOrder]
  · norm_num +decide [createOrder, baseSt, cartA, itemA, inpCodWelcome, inpCod, envCod,
      tenMinutesMs, findCoupon, checkoutCouponStep, couponOkAtCheckout, couponDiscount,
      cartSubtotal, unitPrice, mkOrderItem, mkNewOrder, jround, latestBy, cancelStale,
      pendingGatewayMatch, bumpProducts, bumpVariants, adjStock, cartRows, clearCart,
      incCouponUsed, couponSave, couponWelcome, couponOff, List.find?, Except.toOption,
      CreateOutcome.order, min_def]
  · norm_num +decide [createOrder, stCartB, baseSt, cartB, itemB, inpCod, envCod,
      tenMinutesMs, findCoupon, checkoutCouponStep, couponOkAtCheckout, couponDiscount,
      cartSubtotal, unitPrice, mkOrderItem, mkNewOrder, jround, latestBy, cancelStale,
      pendingGatewayMatch, bumpProducts, bumpVariants, adjStock, cartRows, clearCart,
      incCouponUsed, couponSave, couponWelcome, couponOff, List.find?, Except.toOption,
      CreateOutcome.order]

/-- Witness for C6 at the subtotal-500 COD checkout. -/
theorem createOrder_total_formula_witness :
    (createOrder envCod inpCod stCartB).2 =
      Except.ok (CreateOutcome.created (mkNewOrder envCod inpCod [mkOrderItem itemB] 500 0)) ∧
    (mkNewOrder envCod inpCod [mkOrderItem itemB] 500 0).total =
      (mkNewOrder envCod inpCod [mkOrderItem itemB] 500 0).subtotal -
        (mkNewOrder envCod inpCod [mkOrderItem itemB] 500 0).discount +
        (mkNewOrder envCod inpCod [mkOrderItem itemB] 500 0).shippingCharge +
        (mkNewOrder envCod inpCod [mkOrderItem itemB] 500 0).tax := by
  have h : (createOrder envCod inpCod stCartB).2 =
      Except.ok (CreateOutcome.created (mkNewOrder envCod inpCod [mkOrderItem itemB] 500 0)) := by
    norm_num +decide [createOrder, stCartB, baseSt, cartB, itemB, inpCod, envCod,
      tenMinutesMs, findCoupon, checkoutCouponStep, couponOkAtCheckout, couponDiscount,
      cartSubtotal, unitPrice, mkOrderItem, mkNewOrder, jround, latestBy, cancelStale,
      pendingGatewayMatch, bumpProducts, bumpVariants, adjStock, cartRows, clearCart,
      incCouponUsed, couponSave, couponWelcome, couponOff, List.find?]
  exact ⟨h, (createOrder_total_formula.1 envCod inpCod stCartB _ h).1⟩

/-- C10: a createOrder call supplying a coupon code that fails a validity
gate (nonexistent code, or the checkout gate false because the coupon is
inactive, over its usage limit, outside its window, or below minPurchase)
still creates the order, with discount 0, no coupon-related error, and the
coupon table unchanged (in particular no usedCount increment). -/
theorem createOrder_invalid_coupon_ignored
    (env : CreateEnv) (inp : CreateInput) (s : St) (a : ℕ × ℕ) (cart : Cart) (code : String)
    (haddr : s.addresses.find? (fun x => decide (x.1 = inp.addressId)) = some a)
    (hown : a.2 = inp.userId)
    (hcart : s.carts.find? (fun c => decide (c.userId = inp.userId)) = some cart)
    (hne : cart.items ≠ [])
    (hcc : inp.couponCode = some code) (hcne : code ≠ "")
    (hbad : ∀ c, findCoupon s.coupons code = some c →
      couponOkAtCheckout c env.now (cartSubtotal cart.items) = false)
    (htx : env.txOk = true)
    (hnopend : inp.paymentMethod = PayMethod.RAZORPAY →
      latestBy (s.orders.filter
        (pendingGatewayMatch inp.userId (env.now - tenMinutesMs))) = none)
    (hgw : inp.paymentMethod = PayMethod.RAZORPAY → env.gatewayOrderId.isSome) :
    ∃ o, (createOrder env inp s).2 = Except.ok (CreateOutcome.created o) ∧
      o.discount = 0 ∧ (createOrder env inp s).1.coupons = s.coupons := by
  have hstep : checkoutCouponStep s.coupons inp.couponCode (cartSubtotal cart.items) env.now
      = (0, s.coupons) := by
    rw [hcc]
    rcases hf : findCoupon s.coupons code with _ | c
    · simp [checkoutCouponStep, hcne, hf]
    · simp [checkoutCouponStep, hcne, hf, hbad c hf]
  rcases hpm : inp.paymentMethod with _ | _
  · refine ⟨mkNewOrder env inp (cart.items.map mkOrderItem) (cartSubtotal cart.items) 0,
      ?_, by simp [mkNewOrder], ?_⟩
    · unfold createOrder
      simp [haddr, hown, hcart, hne, htx, hpm, hstep]
    · unfold createOrder
      simp [haddr, hown, hcart, hne, htx, hpm, hstep]
  · rcases hg : env.gatewayOrderId with _ | rid
    · rw [hg] at hgw
      exact absurd (hgw hpm) (by simp)
    refine ⟨{ mkNewOrder env inp (cart.items.map mkOrderItem) (cartSubtotal cart.items) 0 with
        razorpayOrderId := some rid }, ?_, by simp [mkNewOrder], ?_⟩
    · unfold createOrder
      simp [haddr, hown, hcart, hne, htx, hpm, hstep, hg, hnopend hpm, mkNewOrder]
    · unfold createOrder
      simp [haddr, hown, hcart, hne, htx, hpm, hstep, hg, hnopend hpm, mkNewOrder]

/-- Witness for C10 at the inactive coupon OFF on a COD checkout. -/
theorem createOrder_invalid_coupon_ignored_witness :
    (∀ c, findCoupon baseSt.coupons "OFF" = some c →
      couponOkAtCheckout c envCod.now (cartSubtotal cartA.items) = false) ∧
    (∃ o, (createOrder envCod inpCodOff baseSt).2 = Except.ok (CreateOutcome.created o) ∧
      o.discount = 0 ∧ (createOrder envCod inpCodOff baseSt).1.coupons = baseSt.coupons) := by
  have hbad : ∀ c, findCoupon baseSt.coupons "OFF" = some c →
      couponOkAtCheckout c envCod.now (cartSubtotal cartA.items) = false := by
    intro c h
    have e : findCoupon baseSt.coupons "OFF" = some couponOff := by
      norm_num +decide [findCoupon, baseSt, couponSave, couponWelcome, couponOff, List.find?]
    rw [e] at h
    injection h with h2
    rw [← h2]
    simp [couponOkAtCheckout, couponOff]
  refine ⟨hbad, ?_⟩
  refine createOrder_invalid_coupon_ignored envCod inpCodOff baseSt (21, 7) cartA "OFF"
    ?_ rfl ?_ (by decide) rfl (by decide) hbad rfl
    (fun h => absurd h (by decide)) (fun h => absurd h (by decide))
  · norm_num +decide [baseSt, inpCodOff, inpCod, List.find?]
  · norm_num +decide [baseSt, cartA, itemA, inpCodOff, inpCod, List.find?]

/-- C5: effect timing of the two payment paths.  (1) A successful COD
creation decrements product and variant stock for every cart line and
empties the cart, together with appending the order, and only with a
committing transaction; (2) when the COD transaction aborts, none of stock,
carts or orders change; (3) a successful RAZORPAY creation leaves stock and
carts untouched (both for a fresh order and for the idempotent return of an
existing pending order, which changes nothing at all); (4) the deferred
deduction and cart clearing happen in verifyPayment exactly when every
verification gate passes, marking the order PAID and CONFIRMED. -/
theorem cod_gateway_effect_timing :
    (∀ env inp s cart o,
      inp.paymentMethod = PayMethod.COD →
      s.carts.find? (fun c => decide (c.userId = inp.userId)) = some cart →
      (createOrder env inp s).2 = Except.ok (CreateOutcome.created o) →
      (createOrder env inp s).1.products = bumpProducts s.products (cartRows cart.items) (-1) ∧
      (createOrder env inp s).1.variants = bumpVariants s.variants (cartRows cart.items) (-1) ∧
      (createOrder env inp s).1.carts = clearCart s.carts cart.id ∧
      (createOrder env inp s).1.orders = s.orders ++ [o] ∧
      env.txOk = true) ∧
    (∀ env inp s,
      inp.paymentMethod = PayMethod.COD → env.txOk = false →
      (createOrder env inp s).1.products = s.products ∧
      (createOrder env inp s).1.variants = s.variants ∧
      (createOrder env inp s).1.carts = s.carts ∧
      (createOrder env inp s).1.orders = s.orders) ∧
    (∀ env inp s o,
      inp.paymentMethod = PayMethod.RAZORPAY →
      (createOrder env inp s).2 = Except.ok (CreateOutcome.created o) →
      (createOrder env inp s).1.products = s.products ∧
      (createOrder env inp s).1.variants = s.variants ∧
      (createOrder env inp s).1.carts = s.carts) ∧
    (∀ env inp s e,
      (createOrder env inp s).2 = Except.ok (CreateOutcome.existing e) →
      (createOrder env inp s).1 = s) ∧
    (∀ hm secret venv uid oid pid sig s o r,
      s.orders.find? (fun q => decide (q.razorpayOrderId = some oid)) = some o →
      (verifyPayment hm secret venv uid oid pid sig s).2 = Except.ok r →
      (verifyPayment hm secret venv uid oid pid sig s).1.products =
        bumpProducts s.products (orderRows o.items) (-1) ∧
      (verifyPayment hm secret venv uid oid pid sig s).1.variants =
        bumpVariants s.variants (orderRows o.items) (-1) ∧
      (∀ c : Cart, s.carts.find? (fun c : Cart => decide (c.userId = o.userId)) = some c →
        (verifyPayment hm secret venv uid oid pid sig s).1.carts = clearCart s.carts c.id) ∧
      r.paymentStatus = PayStatus.PAID ∧ r.orderStatus = OrdStatus.CONFIRMED) := by
  refine ⟨?_, ?_, ?_, ?_, ?_⟩
  · -- (1) COD success
    intro env inp s cart o hpm hcart h
    rcases createOrder_created_inversion env inp s o h with
      ⟨a, cart', ha, hown, hc', hni, htx, hcase⟩
    rw [hcart] at hc'
    injection hc' with hc2
    subst hc2
    rcases hcase with ⟨_, ho, keyC⟩ | ⟨rid, hpm', _⟩
    · rw [keyC]
      exact ⟨rfl, rfl, rfl, by rw [ho], htx⟩
    · rw [hpm] at hpm'
      exact PayMethod.noConfusion hpm'
  · -- (2) COD aborted transaction
    intro env inp s hpm htx
    unfold createOrder
    rcases ha : s.addresses.find? (fun x => decide (x.1 = inp.addressId)) with _ | a
    · simp [ha]
    by_cases hown : a.2 = inp.userId
    case neg => simp [ha, hown]
    rcases hc : s.carts.find? (fun c => decide (c.userId = inp.userId)) with _ | cart
    · simp [ha, hown, hc]
    by_cases hni : cart.items = []
    · simp [ha, hown, hc, hni]
    · simp [ha, hown, hc, hni, hpm, htx]
  · -- (3) RAZORPAY success creates without stock or cart effects
    intro env inp s o hpm h
    rcases createOrder_created_inversion env inp s o h with
      ⟨a, cart, ha, hown, hc, hni, htx, hcase⟩
    rcases hcase with ⟨hpm', _⟩ | ⟨rid, _, _, _, _, keyR⟩
    · rw [hpm] at hpm'
      exact PayMethod.noConfusion hpm'
    · rw [keyR]
      exact ⟨rfl, rfl, rfl⟩
  · -- (3b) the idempotent existing-order return changes nothing
    intro env inp s e h
    unfold createOrder at h ⊢
    rcases ha : s.addresses.find? (fun x => decide (x.1 = inp.addressId)) with _ | a
    · simp [ha]
    by_cases hown : a.2 = inp.userId
    case neg => simp [ha, hown]
    rcases hc : s.carts.find? (fun c => decide (c.userId = inp.userId)) with _ | cart
    · simp [ha, hown, hc]
    by_cases hni : cart.items = []
    · simp [ha, hown, hc, hni]
    rcases hd :
        (if inp.paymentMethod = PayMethod.RAZORPAY then
          latestBy (s.orders.filter
            (pendingGatewayMatch inp.userId (env.now - tenMinutesMs)))
        else none) with _ | ex
    · -- no dedup hit: the outcome can only be created or an error
      exfalso
      by_cases htx : env.txOk = true
      · rcases hpm : inp.paymentMethod with _ | _
        · simp [ha, hown, hc, hni, hd, htx, hpm] at h
        · have hlat : latestBy (s.orders.filter
              (pendingGatewayMatch inp.userId (env.now - tenMinutesMs))) = none := by
            rw [if_pos hpm] at hd; exact hd
          rcases hg : env.gatewayOrderId with _ | rid <;>
            simp [ha, hown, hc, hni, hlat, htx, hpm, hg] at h
      · simp [ha, hown, hc, hni, hd, htx] at h
    · simp [ha, hown, hc, hni, hd]
  · -- (4) verifyPayment success performs the deferred effects
    intro hm secret venv uid oid pid sig s o r hfind hsucc
    by_cases h1 : oid = "" ∨ pid = "" ∨ sig = []
    · have key : (verifyPayment hm secret venv uid oid pid sig s).2 =
          Except.error ⟨"Missing payment verification details", 400⟩ := by
        unfold verifyPayment; rw [if_pos h1]
      rw [key] at hsucc; exact Except.noConfusion hsucc
    by_cases h2 : sig ≠ hm secret (oid ++ "|" ++ pid)
    · have key : (verifyPayment hm secret venv uid oid pid sig s).2 =
          Except.error ⟨"Payment verification failed", 400⟩ := by
        unfold verifyPayment; rw [if_neg h1, if_pos h2]
      rw [key] at hsucc; exact Except.noConfusion hsucc
    by_cases h3 : o.userId ≠ uid
    · have key : (verifyPayment hm secret venv uid oid pid sig s).2 =
          Except.error ⟨"You are not authorized to verify this payment", 403⟩ := by
        unfold verifyPayment
        rw [if_neg h1, if_neg h2]
        simp only [hfind]
        rw [if_pos h3]
      rw [key] at hsucc; exact Except.noConfusion hsucc
    rcases h4 : venv.fetchedPaise with _ | paise
    · have key : (verifyPayment hm secret venv uid oid pid sig s).2 =
          Except.error ⟨"Could not verify payment amount", 500⟩ := by
        unfold verifyPayment
        rw [if_neg h1, if_neg h2]
        simp only [hfind]
        rw [if_neg h3]
        simp only [h4]
      rw [key] at hsucc; exact Except.noConfusion hsucc
    by_cases h5 : 1 / 100 < |paise / 100 - o.total|
    · have key : (verifyPayment hm secret venv uid oid pid sig s).2 =
          Except.error ⟨"Payment amount does not match order total", 400⟩ := by
        unfold verifyPayment
        rw [if_neg h1, if_neg h2]
        simp only [hfind]
        rw [if_neg h3]
        simp only [h4]
        rw [if_pos h5]
      rw [key] at hsucc; exact Except.noConfusion hsucc
    by_cases h6 : venv.txOk = true
    case neg =>
      have key : (verifyPayment hm secret venv uid oid pid sig s).2 =
          Except.error ⟨"Transaction failed", 500⟩ := by
        unfold verifyPayment
        rw [if_neg h1, if_neg h2]
        simp only [hfind]
        rw [if_neg h3]
        simp only [h4]
        rw [if_neg h5, if_neg h6]
      rw [key] at hsucc; exact Except.noConfusion hsucc
    have key : verifyPayment hm secret venv uid oid pid sig s =
        ((match s.carts.find? (fun c : Cart => decide (c.userId = o.userId)) with
          | some c =>
            { s with
                orders := s.orders.map (fun q : Order =>
                  if q.id = o.id then
                    { o with
                      paymentStatus := PayStatus.PAID
                      orderStatus := OrdStatus.CONFIRMED
                      razorpayPaymentId := some pid }
                  else q)
                products := bumpProducts s.products (orderRows o.items) (-1)
                variants := bumpVariants s.variants (orderRows o.items) (-1)
                carts := clearCart s.carts c.id }
          | none =>
            { s with
                orders := s.orders.map (fun q : Order =>
                  if q.id = o.id then
                    { o with
                      paymentStatus := PayStatus.PAID
                      orderStatus := OrdStatus.CONFIRMED
                      razorpayPaymentId := some pid }
                  else q)
                products := bumpProducts s.products (orderRows o.items) (-1)
                variants := bumpVariants s.variants (orderRows o.items) (-1) }),
          Except.ok
            { o with
              paymentStatus := PayStatus.PAID
              orderStatus := OrdStatus.CONFIRMED
              razorpayPaymentId := some pid }) := by
      unfold verifyPayment
      rw [if_neg h1, if_neg h2]
      simp only [hfind]
      rw [if_neg h3]
      simp only [h4]
      rw [if_neg h5, if_pos h6]
    have hr : r =
        { o with
          paymentStatus := PayStatus.PAID
          orderStatus := OrdStatus.CONFIRMED
          razorpayPaymentId := some pid } := by
      rw [key] at hsucc
      simp only [Except.ok.injEq] at hsucc
      exact hsucc.symm
    refine ⟨?_, ?_, ?_, by rw [hr], by rw [hr]⟩
    · rw [key]
      rcases hfc : s.carts.find? (fun c : Cart => decide (c.userId = o.userId)) with _ | c <;>
        simp [hfc]
    · rw [key]
      rcases hfc : s.carts.find? (fun c : Cart => decide (c.userId = o.userId)) with _ | c <;>
        simp [hfc]
    · intro c hc
      rw [key]
      simp [hc]

/-- Witness for C5: a COD checkout of the two-line cart (one variant line)
and a successful verification of the pending gateway order. -/
theorem cod_gateway_effect_timing_witness :
    stCartV.carts.find? (fun c => decide (c.userId = inpCod.userId)) = some cartV ∧
    (createOrder envCod inpCod stCartV).2 = Except.ok (CreateOutcome.created
      (mkNewOrder envCod inpCod (cartV.items.map mkOrderItem) (cartSubtotal cartV.items) 0)) ∧
    (createOrder envCod inpCod stCartV).1.carts = clearCart stCartV.carts cartV.id ∧
    stRzp.orders.find? (fun q => decide (q.razorpayOrderId = some "rz1")) = some ordRzp ∧
    (verifyPayment hmacW "sec" venvOk 7 "rz1" "pay1" [7, 7] stRzp).2 =
      Except.ok { ordRzp with
        paymentStatus := PayStatus.PAID
        orderStatus := OrdStatus.CONFIRMED
        razorpayPaymentId := some "pay1" } ∧
    (verifyPayment hmacW "sec" venvOk 7 "rz1" "pay1" [7, 7] stRzp).1.products =
      bumpProducts stRzp.products (orderRows ordRzp.items) (-1) := by
  have hfind1 : stCartV.carts.find? (fun c => decide (c.userId = inpCod.userId)) =
      some cartV := by
    norm_num +decide [stCartV, baseSt, cartV, itemA, itemV, inpCod, List.find?]
  have hcr : (createOrder envCod inpCod stCartV).2 = Except.ok (CreateOutcome.created
      (mkNewOrder envCod inpCod (cartV.items.map mkOrderItem) (cartSubtotal cartV.items) 0)) := by
    norm_num +decide [createOrder, stCartV, baseSt, cartV, itemA, itemV, inpCod, envCod,
      tenMinutesMs, findCoupon, checkoutCouponStep, couponOkAtCheckout, couponDiscount,
      cartSubtotal, unitPrice, mkOrderItem, latestBy, cancelStale, pendingGatewayMatch,
      List.find?]
  have hfindR : stRzp.orders.find? (fun q => decide (q.razorpayOrderId = some "rz1")) =
      some ordRzp := by
    norm_num +decide [stRzp, baseSt, ordRzp, mkNewOrder, envRzp, envCod, inpRzp, inpCod,
      List.find?]
  have hsucc : (verifyPayment hmacW "sec" venvOk 7 "rz1" "pay1" [7, 7] stRzp).2 =
      Except.ok { ordRzp with
        paymentStatus := PayStatus.PAID
        orderStatus := OrdStatus.CONFIRMED
        razorpayPaymentId := some "pay1" } := by
    norm_num +decide [verifyPayment, hmacW, venvOk, stRzp, baseSt, ordRzp, mkNewOrder,
      mkOrderItem, itemA, unitPrice, envRzp, envCod, inpRzp, inpCod, jround, cartSubtotal,
      bumpProducts, bumpVariants, adjStock, orderRows, clearCart, cartA, List.find?]
  refine ⟨hfind1, hcr, ?_, hfindR, hsucc, ?_⟩
  · exact (cod_gateway_effect_timing.1 envCod inpCod stCartV cartV _ rfl hfind1 hcr).2.2.1
  · exact (cod_gateway_effect_timing.2.2.2.2 hmacW "sec" venvOk 7 "rz1" "pay1" [7, 7]
      stRzp ordRzp _ hfindR hsucc).1

/-- C8 (amended): cancelOrder on an owned order in status PENDING or
CONFIRMED succeeds, increments every item product (and variant) stock by
the item quantity — the exact inverse of the deduction for orders whose
stock was actually deducted (COD creation, verified gateway payment), which
is what restores the pre-order value there; the same unconditional
increment also runs for pending unpaid gateway orders whose stock was never
deducted, where it overshoots the pre-order value (see the counterexample)
— marks the order CANCELLED, and flips paymentStatus to REFUNDED exactly
when it was PAID.  On an owned order in any other status (DELIVERED
included) it fails with BadRequest and changes nothing. -/
theorem cancelOrder_behavior (uid oid : ℕ) (s : St) (o : Order)
    (hfind : s.orders.find? (fun q => decide (q.id = oid)) = some o)
    (hown : o.userId = uid) :
    ((o.orderStatus = OrdStatus.PENDING ∨ o.orderStatus = OrdStatus.CONFIRMED) →
      (cancelOrder uid oid s).2 = Except.ok () ∧
      (cancelOrder uid oid s).1.products = bumpProducts s.products (orderRows o.items) 1 ∧
      (cancelOrder uid oid s).1.variants = bumpVariants s.variants (orderRows o.items) 1 ∧
      (cancelOrder uid oid s).1.carts = s.carts ∧
      (cancelOrder uid oid s).1.coupons = s.coupons ∧
      (cancelOrder uid oid s).1.orders = s.orders.map (fun q : Order =>
        if q.id = oid then
          { q with
            orderStatus := OrdStatus.CANCELLED
            paymentStatus :=
              if o.paymentStatus = PayStatus.PAID then PayStatus.REFUNDED
              else o.paymentStatus }
        else q)) ∧
    (¬(o.orderStatus = OrdStatus.PENDING ∨ o.orderStatus = OrdStatus.CONFIRMED) →
      cancelOrder uid oid s =
        (s, Except.error ⟨"Order cannot be cancelled at this stage", 400⟩)) := by
  constructor
  · intro hst
    have key : cancelOrder uid oid s =
        ({ s with
            products := bumpProducts s.products (orderRows o.items) 1
            variants := bumpVariants s.variants (orderRows o.items) 1
            orders := s.orders.map (fun q : Order =>
              if q.id = oid then
                { q with
                  orderStatus := OrdStatus.CANCELLED
                  paymentStatus :=
                    if o.paymentStatus = PayStatus.PAID then PayStatus.REFUNDED
                    else o.paymentStatus }
              else q) },
          Except.ok ()) := by
      unfold cancelOrder
      simp only [hfind]
      rw [if_neg (by simp [hown])]
      rw [if_pos hst]
    exact ⟨by rw [key], by rw [key], by rw [key], by rw [key], by rw [key], by rw [key]⟩
  · intro hst
    unfold cancelOrder
    simp only [hfind]
    rw [if_neg (by simp [hown]), if_neg hst]

/-- C8 counterexample: cancelling a pending unpaid gateway order, whose
stock was never deducted, does not restore stock to its pre-order value but
inflates it: product 1 is at 10 before and after the RAZORPAY createOrder
(deduction deferred to verification), yet cancelOrder raises it to 12. -/
theorem cancelOrder_overrestores_counterexample :
    baseSt.products = [(1, 10), (2, 8)] ∧
    (createOrder envRzp inpRzp baseSt).1.products = [(1, 10), (2, 8)] ∧
    (cancelOrder 7 100 (createOrder envRzp inpRzp baseSt).1).2 = Except.ok () ∧
    (cancelOrder 7 100 (createOrder envRzp inpRzp baseSt).1).1.products =
      [(1, 12), (2, 8)] := by
  refine ⟨rfl, ?_, ?_, ?_⟩ <;>
    norm_num +decide [createOrder, cancelOrder, baseSt, cartA, itemA, inpRzp, inpCod,
      envRzp, envCod, tenMinutesMs, findCoupon, checkoutCouponStep, couponOkAtCheckout,
      couponDiscount, cartSubtotal, unitPrice, mkOrderItem, mkNewOrder, jround, latestBy,
      cancelStale, pendingGatewayMatch, bumpProducts, bumpVariants, adjStock, cartRows,
      orderRows, clearCart, incCouponUsed, couponSave, couponWelcome, couponOff, List.find?]

/-- Witness for C8 (amended): a pending gateway order cancels with the
stock increment, a paid confirmed order flips to REFUNDED, and a delivered
order is rejected unchanged. -/
theorem cancelOrder_behavior_witness :
    stRzp.orders.find? (fun q => decide (q.id = 100)) = some ordRzp ∧
    (cancelOrder 7 100 stRzp).2 = Except.ok () ∧
    (cancelOrder 7 100 stRzp).1.products =
      bumpProducts stRzp.products (orderRows ordRzp.items) 1 ∧
    (cancelOrder 7 100 stPaid).1.orders = stPaid.orders.map (fun q : Order =>
      if q.id = 100 then
        { q with
          orderStatus := OrdStatus.CANCELLED
          paymentStatus :=
            if ordPaid.paymentStatus = PayStatus.PAID then PayStatus.REFUNDED
            else ordPaid.paymentStatus }
      else q) ∧
    cancelOrder 7 100 stDone =
      (stDone, Except.error ⟨"Order cannot be cancelled at this stage", 400⟩) := by
  have hfind1 : stRzp.orders.find? (fun q => decide (q.id = 100)) = some ordRzp := by
    norm_num +decide [stRzp, baseSt, ordRzp, mkNewOrder, envRzp, envCod, inpRzp, inpCod,
      List.find?]
  have hfind2 : stPaid.orders.find? (fun q => decide (q.id = 100)) = some ordPaid := by
    norm_num +decide [stPaid, baseSt, ordPaid, ordRzp, mkNewOrder, envRzp, envCod, inpRzp,
      inpCod, List.find?]
  have hfind3 : stDone.orders.find? (fun q => decide (q.id = 100)) = some ordDone := by
    norm_num +decide [stDone, baseSt, ordDone, ordRzp, mkNewOrder, envRzp, envCod, inpRzp,
      inpCod, List.find?]
  have hown1 : ordRzp.userId = 7 := by
    norm_num [ordRzp, mkNewOrder, envRzp, envCod, inpRzp, inpCod]
  have hown2 : ordPaid.userId = 7 := by
    norm_num [ordPaid, ordRzp, mkNewOrder, envRzp, envCod, inpRzp, inpCod]
  have hown3 : ordDone.userId = 7 := by
    norm_num [ordDone, ordRzp, mkNewOrder, envRzp, envCod, inpRzp, inpCod]
  have hst1 : ordRzp.orderStatus = OrdStatus.PENDING ∨
      ordRzp.orderStatus = OrdStatus.CONFIRMED := by
    left; norm_num [ordRzp, mkNewOrder, envRzp, envCod, inpRzp, inpCod]
  have hst2 : ordPaid.orderStatus = OrdStatus.PENDING ∨
      ordPaid.orderStatus = OrdStatus.CONFIRMED := by
    right; norm_num [ordPaid, ordRzp, mkNewOrder, envRzp, envCod, inpRzp, inpCod]
  have hst3 : ¬(ordDone.orderStatus = OrdStatus.PENDING ∨
      ordDone.orderStatus = OrdStatus.CONFIRMED) := by
    norm_num [ordDone, ordRzp, mkNewOrder, envRzp, envCod, inpRzp, inpCod]
    exact ⟨by decide, by decide⟩
  have w1 := (cancelOrder_behavior 7 100 stRzp ordRzp hfind1 hown1).1 hst1
  have w2 := (cancelOrder_behavior 7 100 stPaid ordPaid hfind2 hown2).1 hst2
  have w3 := (cancelOrder_behavior 7 100 stDone ordDone hfind3 hown3).2 hst3
  exact ⟨hfind1, w1.1, w1.2.1, w2.2.2.2.2.2, w3⟩

/-- The fold underlying latestBy keeps a some accumulator. -/
theorem latestBy_foldl_some (l : List Order) (b : Order) :
    ∃ r, l.foldl
      (fun acc o =>
        match acc with
        | none => some o
        | some b => if b.createdAt < o.createdAt then some o else some b)
      (some b) = some r := by
  induction l generalizing b with
  | nil => exact ⟨b, rfl⟩
  | cons a l ih =>
    simp only [List.foldl_cons]
    by_cases hba : b.createdAt < a.createdAt
    · simpa [hba] using ih a
    · simpa [hba] using ih b

/-- latestBy is none only on the empty list. -/
theorem latestBy_eq_nil (l : List Order) (h : latestBy l = none) : l = [] := by
  cases l with
  | nil => rfl
  | cons a l =>
    exfalso
    unfold latestBy at h
    simp only [List.foldl_cons] at h
    rcases latestBy_foldl_some l a with ⟨r, hr⟩
    rw [hr] at h
    exact Option.noConfusion h

/-- C7: calling createOrder twice with RAZORPAY for the same user, the
second call within 10 minutes of a successful first call and with no
intervening state change, returns the order the first call created,
unchanged, as the existing pending gateway order, and leaves the database
exactly as the first call left it — no second order is created. -/
theorem createOrder_gateway_idempotent
    (env1 env2 : CreateEnv) (inp : CreateInput) (s : St) (o : Order)
    (hpm : inp.paymentMethod = PayMethod.RAZORPAY)
    (hfresh : ∀ q ∈ s.orders, q.id ≠ env1.newOrderId)
    (h1 : (createOrder env1 inp s).2 = Except.ok (CreateOutcome.created o))
    (hle : env1.now ≤ env2.now)
    (hwin : env2.now - tenMinutesMs ≤ env1.now) :
    createOrder env2 inp ((createOrder env1 inp s).1) =
      ((createOrder env1 inp s).1, Except.ok (CreateOutcome.existing o)) := by
  rcases createOrder_created_inversion env1 inp s o h1 with
    ⟨a, cart, ha, hown, hc, hni, htx, hcase⟩
  rcases hcase with ⟨hpm', _⟩ | ⟨rid, _, hg, hlat, ho, keyR⟩
  · rw [hpm] at hpm'
    exact PayMethod.noConfusion hpm'
  have hnil : s.orders.filter
      (pendingGatewayMatch inp.userId (env1.now - tenMinutesMs)) = [] :=
    latestBy_eq_nil _ hlat
  have hnomatch := List.filter_eq_nil_iff.mp hnil
  have hmap : ∀ q ∈ (cancelStale s.orders inp.userId (env1.now - tenMinutesMs)).map
      (fun q : Order =>
        if q.id = env1.newOrderId then { q with razorpayOrderId := some rid } else q),
      pendingGatewayMatch inp.userId (env2.now - tenMinutesMs) q = false := by
    intro q hq
    rcases List.mem_map.mp hq with ⟨q₁, hq₁, rfl⟩
    unfold cancelStale at hq₁
    rcases List.mem_map.mp hq₁ with ⟨q₀, hq₀, rfl⟩
    by_cases hcond : (decide (q₀.userId = inp.userId) &&
        decide (q₀.paymentMethod = PayMethod.RAZORPAY) &&
        decide (q₀.paymentStatus = PayStatus.PENDING) &&
        decide (q₀.orderStatus = OrdStatus.PENDING) &&
        decide (q₀.createdAt < env1.now - tenMinutesMs)) = true
    · rw [if_pos hcond]
      simp [pendingGatewayMatch, hfresh q₀ hq₀]
    · rw [if_neg hcond]
      rw [if_neg (hfresh q₀ hq₀)]
      by_contra hcon
      rw [Bool.not_eq_false] at hcon
      apply hnomatch q₀ hq₀
      simp only [pendingGatewayMatch, Bool.and_eq_true, decide_eq_true_eq] at hcon ⊢
      obtain ⟨⟨⟨⟨⟨c1, c2⟩, c3⟩, c4⟩, c5⟩, c6⟩ := hcon
      exact ⟨⟨⟨⟨⟨c1, c2⟩, c3⟩, c4⟩, c5⟩, le_trans (sub_le_sub_right hle _) c6⟩
  have hfilterA : ((cancelStale s.orders inp.userId (env1.now - tenMinutesMs)).map
      (fun q : Order =>
        if q.id = env1.newOrderId then { q with razorpayOrderId := some rid } else q)).filter
      (pendingGatewayMatch inp.userId (env2.now - tenMinutesMs)) = [] :=
    List.filter_eq_nil_iff.mpr (fun q hq => by simp [hmap q hq])
  rw [keyR]
  unfold createOrder
  simp [ha, hown, hc, hni, hpm, hfilterA, ho, hwin, mkNewOrder, pendingGatewayMatch,
    latestBy]

/-- Witness for C7: the RAZORPAY checkout at time 5 followed by an
identical call at time 300005 (5 minutes later, inside the 10-minute
window) with no state change in between. -/
theorem createOrder_gateway_idempotent_witness :
    (createOrder envRzp inpRzp baseSt).2 = Except.ok (CreateOutcome.created ordRzp) ∧
    envRzp.now ≤ envRzp2.now ∧ envRzp2.now - tenMinutesMs ≤ envRzp.now ∧
    createOrder envRzp2 inpRzp ((createOrder envRzp inpRzp baseSt).1) =
      ((createOrder envRzp inpRzp baseSt).1, Except.ok (CreateOutcome.existing ordRzp)) := by
  have h1 : (createOrder envRzp inpRzp baseSt).2 =
      Except.ok (CreateOutcome.created ordRzp) := by
    norm_num +decide [createOrder, baseSt, cartA, itemA, inpRzp, inpCod, envRzp, envCod,
      tenMinutesMs, findCoupon, checkoutCouponStep, couponOkAtCheckout, couponDiscount,
      cartSubtotal, unitPrice, mkOrderItem, mkNewOrder, jround, latestBy, cancelStale,
      pendingGatewayMatch, ordRzp, List.find?]
  refine ⟨h1, by decide, by decide, ?_⟩
  exact createOrder_gateway_idempotent envRzp envRzp2 inpRzp baseSt ordRzp (by decide)
    (by intro q hq; simp [baseSt] at hq) h1 (by decide) (by decide)

end Helmet
